import Mathlib

/-!
Verification of the distributed-lock manager in `src/service/lock.go`
(`EtcdDistLock` and its operations `NewEtcdDistLock`, `Lock`, `Unlock`,
`Close`), as a shallow embedding.  The etcd store round-trips
(`clientv3.New`, `concurrency.NewSession`, `mutex.Lock`, `mutex.Unlock`,
`etcdClient.Close`) are injected as explicit outcome parameters, and the
session-lifecycle side effects each operation performs are recorded in an
effect trace.
-/

namespace DistLock

/-- Outcome of a store round-trip that can fail (network/timeout/cancel),
standing in for the `error` values returned by the etcd client library. -/
inductive StoreErr where
  | timeout
  | cancelled
  | unavailable
deriving DecidableEq, Repr

/-- The typed errors `lock.go` constructs and returns.  Each constructor
matches one `errors.New`/`fmt.Errorf` site in the source. -/
inductive LockErr where
  /-- "ETCD客户端未初始化" -/
  | clientNotInit
  /-- "创建ETCD会话失败：%w" -/
  | sessionCreateFailed (e : StoreErr)
  /-- "获取分布式锁失败：%w" -/
  | lockFailed (e : StoreErr)
  /-- "未获取到分布式锁，无需释放" -/
  | notHeld
  /-- "释放分布式锁失败：%w" -/
  | unlockFailed (e : StoreErr)
deriving DecidableEq, Repr

/-- `clientv3.Client`: only its identity (configured endpoints) matters here. -/
structure Client where
  endpoints : List String
deriving DecidableEq, Repr

/-- `concurrency.Session`: a lease session with a store-assigned id and the
TTL it was opened with (`concurrency.WithTTL(ttl)`). -/
structure Session where
  id : Nat
  ttl : Nat
deriving DecidableEq, Repr

/-- `concurrency.Mutex`: created by `concurrency.NewMutex(session, pfx)`,
it is bound to a session and to the key prefix passed at creation. -/
structure Mutex where
  sessionId : Nat
  pfx : String
deriving DecidableEq, Repr

/-- The `EtcdDistLock` struct of `lock.go`. -/
structure EtcdDistLock where
  etcdClient : Option Client
  session : Option Session
  mutex : Option Mutex
  lockPfx : String
deriving DecidableEq, Repr

/-- Session/client lifecycle side effects an operation performs against the
store, in program order. -/
inductive Effect where
  /-- `concurrency.NewSession` succeeded and started the keep-alive task. -/
  | sessionCreated (id : Nat)
  /-- `session.Close()`: lease revoked, keep-alive task stopped. -/
  | sessionClosed (id : Nat)
  /-- `etcdClient.Close()` was invoked. -/
  | clientClosed
deriving DecidableEq, Repr

deriving instance DecidableEq for Except

/-- Result of `Lock`/`Unlock`: the updated receiver, the returned `error`
value (`.ok ()` for `nil`), and the effect trace. -/
structure OpResult where
  state : EtcdDistLock
  res : Except LockErr Unit
  effects : List Effect
deriving DecidableEq, Repr

/-- Result of `Close`, which returns the raw client error unwrapped. -/
structure CloseResult where
  state : EtcdDistLock
  res : Except StoreErr Unit
  effects : List Effect
deriving DecidableEq, Repr

/-- `NewEtcdDistLock(endpoints, lockPrefix)`: configures and creates the
etcd client (`clientOutcome` injects the result of `clientv3.New`) and on
success returns the instance with only `etcdClient` and the prefix set. -/
def NewEtcdDistLock (endpoints : List String) (p : String)
    (clientOutcome : Except StoreErr Unit) : Except StoreErr EtcdDistLock :=
  match clientOutcome with
  | .error e => .error e
  | .ok _ => .ok { etcdClient := some ⟨endpoints⟩, session := none, mutex := none, lockPfx := p }

/-- `(l *EtcdDistLock) Lock(ctx, ttl)`.  `sessionOutcome` injects the result
of `concurrency.NewSession` (the store-assigned session id on success) and
`lockOutcome` the result of `mutex.Lock(ctx)`. -/
def Lock (l : EtcdDistLock) (ttl : Nat) (sessionOutcome : Except StoreErr Nat)
    (lockOutcome : Except StoreErr Unit) : OpResult :=
  match l.etcdClient with
  | none => ⟨l, .error .clientNotInit, []⟩
  | some _ =>
    match sessionOutcome with
    | .error e => ⟨l, .error (.sessionCreateFailed e), []⟩
    | .ok sid =>
      let session : Session := ⟨sid, ttl⟩
      let mutex : Mutex := ⟨sid, l.lockPfx⟩
      match lockOutcome with
      | .error e =>
          ⟨l, .error (.lockFailed e), [.sessionCreated sid, .sessionClosed sid]⟩
      | .ok _ =>
          ⟨{ l with session := some session, mutex := some mutex }, .ok (),
            [.sessionCreated sid]⟩

/-- `(l *EtcdDistLock) Unlock(ctx)`.  `unlockOutcome` injects the result of
`l.mutex.Unlock(ctx)`. -/
def Unlock (l : EtcdDistLock) (unlockOutcome : Except StoreErr Unit) : OpResult :=
  match l.mutex, l.session with
  | none, _ => ⟨l, .error .notHeld, []⟩
  | some _, none => ⟨l, .error .notHeld, []⟩
  | some _, some s =>
    match unlockOutcome with
    | .error e => ⟨l, .error (.unlockFailed e), []⟩
    | .ok _ =>
        ⟨{ l with session := none, mutex := none }, .ok (), [.sessionClosed s.id]⟩

/-- `(l *EtcdDistLock) Close()`: closes the etcd client when present
(`closeOutcome` injects the client's close result) and otherwise returns nil.
It touches neither `session` nor `mutex`. -/
def Close (l : EtcdDistLock) (closeOutcome : Except StoreErr Unit) : CloseResult :=
  match l.etcdClient with
  | some _ => ⟨l, closeOutcome, [.clientClosed]⟩
  | none => ⟨l, .ok (), []⟩

/-- Modelled from the spec: the contention-queue data underlying
`concurrency.Mutex`, whose implementation is not under `src/`.  A queue
entry is "{ prefix, session-scoped unique suffix, store-assigned monotonic
revision number }". -/
structure QueueEntry where
  pfx : String
  suffix : String
  revision : Nat
deriving DecidableEq, Repr

/-- Modelled from the spec: the live entries under a given lock prefix
(an ordered range read restricted to the prefix). -/
def liveUnder (entries : List QueueEntry) (p : String) : List QueueEntry :=
  entries.filter (fun e => e.pfx = p)

/-- Modelled from the spec: ownership — "my entry's revision is the minimum
live revision under this prefix".  A caller's handle is Held exactly when
its entry owns the lock. -/
def ownsLock (entries : List QueueEntry) (p : String) (e : QueueEntry) : Prop :=
  e ∈ liveUnder entries p ∧ ∀ e2 ∈ liveUnder entries p, e.revision ≤ e2.revision

instance (entries : List QueueEntry) (p : String) (e : QueueEntry) :
    Decidable (ownsLock entries p e) := by
  unfold ownsLock
  infer_instance

/-- The session-nil-iff-mutex-nil invariant of the `EtcdDistLock` struct:
both fields are set together on a successful `Lock` and cleared together on
a successful `Unlock`. -/
def sessionMutexInv (l : EtcdDistLock) : Prop := l.session = none ↔ l.mutex = none

/-- A concrete client, as configured in `main` of `lock.go`. -/
def cliA : Client := ⟨["127.0.0.1:2379"]⟩

/-- A freshly constructed manager instance with prefix "/r/". -/
def mgrA : EtcdDistLock := ⟨some cliA, none, none, "/r/"⟩

/-- A manager instance whose client was never initialized. -/
def mgrNil : EtcdDistLock := ⟨none, none, none, "/r/"⟩

/-- The state of `mgrA` after a successful `Lock` with ttl 10 and
store-assigned session id 1. -/
def heldA : EtcdDistLock := (Lock mgrA 10 (.ok 1) (.ok ())).state

/-- Claim C1: among queue entries with pairwise-distinct store-assigned
revisions, at most one entry under a given lock prefix owns the lock (is
Held): ownership is exactly "minimum live revision under the prefix", and
the minimum is unique. -/
theorem mutual_exclusion (entries : List QueueEntry) (p : String) (e1 e2 : QueueEntry)
    (hdist : ∀ a ∈ entries, ∀ b ∈ entries, a.revision = b.revision → a = b)
    (h1 : ownsLock entries p e1) (h2 : ownsLock entries p e2) : e1 = e2 := by
  unfold ownsLock liveUnder at h1 h2
  obtain ⟨hm1, hmin1⟩ := h1
  obtain ⟨hm2, hmin2⟩ := h2
  have hrev : e1.revision = e2.revision :=
    le_antisymm (hmin1 e2 hm2) (hmin2 e1 hm1)
  exact hdist e1 (List.mem_of_mem_filter hm1) e2 (List.mem_of_mem_filter hm2) hrev

/-- Concrete two-entry queue under prefix "a" for the C1 witness. -/
def entsW : List QueueEntry := [⟨"a", "s1", 5⟩, ⟨"a", "s2", 7⟩]

theorem mutual_exclusion_witness :
    (∀ a ∈ entsW, ∀ b ∈ entsW, a.revision = b.revision → a = b) ∧
    ownsLock entsW "a" ⟨"a", "s1", 5⟩ ∧
    (⟨"a", "s1", 5⟩ : QueueEntry) = ⟨"a", "s1", 5⟩ :=
  ⟨by decide, by decide,
    mutual_exclusion entsW "a" ⟨"a", "s1", 5⟩ ⟨"a", "s1", 5⟩
      (by decide) (by decide) (by decide)⟩

/-- Claim C2: after a successful `Unlock` the handle is cleared, and a
second `Unlock` on the released state returns the NotHeld error
("未获取到分布式锁，无需释放"); likewise `Unlock` on an instance that never
held the lock (session nil) returns that error. -/
theorem unlock_not_held_error (l l0 : EtcdDistLock) (o o2 o0 : Except StoreErr Unit)
    (h : (Unlock l o).res = .ok ()) (h0 : l0.session = none) :
    (Unlock (Unlock l o).state o2).res = .error .notHeld ∧
    (Unlock l0 o0).res = .error .notHeld := by
  refine ⟨?_, ?_⟩
  · cases hm : l.mutex with
    | none => simp [Unlock, hm] at h
    | some m =>
      cases hs : l.session with
      | none => simp [Unlock, hm, hs] at h
      | some s =>
        cases o with
        | error e => simp [Unlock, hm, hs] at h
        | ok u => simp [Unlock, hm, hs]
  · cases hm0 : l0.mutex with
    | none => simp [Unlock, hm0]
    | some m0 => simp [Unlock, hm0, h0]

theorem unlock_not_held_error_witness :
    (Unlock heldA (.ok ())).res = .ok () ∧ mgrA.session = none ∧
    ((Unlock (Unlock heldA (.ok ())).state (.ok ())).res = .error .notHeld ∧
      (Unlock mgrA (.ok ())).res = .error .notHeld) :=
  ⟨by decide, by decide,
    unlock_not_held_error heldA mgrA (.ok ()) (.ok ()) (.ok ())
      (by decide) (by decide)⟩

/-- First acquire/release cycle on `mgrA`: session id 1 assigned. -/
def cycle1 : OpResult := Lock mgrA 10 (.ok 1) (.ok ())

/-- Release ending the first cycle. -/
def rel1 : OpResult := Unlock cycle1.state (.ok ())

/-- Second acquire on the same manager instance: session id 2 assigned. -/
def cycle2 : OpResult := Lock rel1.state 10 (.ok 2) (.ok ())

/-- Claim C3 counterexample: across two sequential acquire/release cycles
on one manager instance, the release closes the first session and the
second acquire creates a brand-new session — the session is destroyed per
Release and recreated per Acquire, not reused. -/
theorem session_not_reused_counterexample :
    cycle1.effects = [.sessionCreated 1] ∧
    rel1.effects = [.sessionClosed 1] ∧
    cycle2.effects = [.sessionCreated 2] ∧
    cycle1.state.session = some ⟨1, 10⟩ ∧
    cycle2.state.session = some ⟨2, 10⟩ ∧
    (⟨2, 10⟩ : Session) ≠ ⟨1, 10⟩ := by decide

/-- Claim C3 (amended): each successful `Lock` creates a fresh session
(stored in the instance) and each successful `Unlock` closes the session it
held and clears it; no session survives a Release or predates its Acquire. -/
theorem session_per_cycle (l l2 : EtcdDistLock) (c : Client) (m : Mutex) (s : Session)
    (ttl sid : Nat) (hc : l.etcdClient = some c)
    (hm : l2.mutex = some m) (hs : l2.session = some s) :
    (Lock l ttl (.ok sid) (.ok ())).effects = [.sessionCreated sid] ∧
    (Lock l ttl (.ok sid) (.ok ())).state.session = some ⟨sid, ttl⟩ ∧
    (Unlock l2 (.ok ())).effects = [.sessionClosed s.id] ∧
    (Unlock l2 (.ok ())).state.session = none := by
  simp [Lock, Unlock, hc, hm, hs]

theorem session_per_cycle_witness :
    mgrA.etcdClient = some cliA ∧ heldA.mutex = some ⟨1, "/r/"⟩ ∧
    heldA.session = some ⟨1, 10⟩ ∧
    ((Lock mgrA 10 (.ok 1) (.ok ())).effects = [.sessionCreated 1] ∧
      (Lock mgrA 10 (.ok 1) (.ok ())).state.session = some ⟨1, 10⟩ ∧
      (Unlock heldA (.ok ())).effects = [.sessionClosed 1] ∧
      (Unlock heldA (.ok ())).state.session = none) :=
  ⟨by decide, by decide, by decide,
    session_per_cycle mgrA heldA cliA ⟨1, "/r/"⟩ ⟨1, 10⟩ 10 1
      (by decide) (by decide) (by decide)⟩

/-- Claim C4 counterexample: on an instance currently holding the lock,
`Close` only closes the etcd client; the session field stays set and no
session-close (lease revocation / renewal-task stop) happens. -/
theorem close_leaves_session_counterexample :
    heldA.session = some ⟨1, 10⟩ ∧
    (Close heldA (.ok ())).state.session = some ⟨1, 10⟩ ∧
    (Close heldA (.ok ())).effects = [.clientClosed] ∧
    Effect.sessionClosed 1 ∉ (Close heldA (.ok ())).effects := by decide

/-- Claim C4 (amended): `Close` closes the store client when present and
returns its result, but does not tear down the session: it never emits a
session-close and leaves the session and mutex fields untouched. -/
theorem close_only_client (l : EtcdDistLock) (c : Client) (co : Except StoreErr Unit)
    (hc : l.etcdClient = some c) :
    (Close l co).res = co ∧ (Close l co).effects = [.clientClosed] ∧
    (Close l co).state = l := by
  simp [Close, hc]

theorem close_only_client_witness :
    heldA.etcdClient = some cliA ∧
    ((Close heldA (.ok ())).res = .ok () ∧
      (Close heldA (.ok ())).effects = [.clientClosed] ∧
      (Close heldA (.ok ())).state = heldA) :=
  ⟨by decide, close_only_client heldA cliA (.ok ()) (by decide)⟩

/-- Claim C5: when `mutex.Lock(ctx)` fails (cancellation/deadline), `Lock`
closes the session it created — revoking the lease backing the queue
entry — and then returns the wrapped error, leaving the instance unchanged. -/
theorem lock_cancel_closes_session (l : EtcdDistLock) (c : Client) (ttl sid : Nat)
    (e : StoreErr) (hc : l.etcdClient = some c) :
    (Lock l ttl (.ok sid) (.error e)).res = .error (.lockFailed e) ∧
    (Lock l ttl (.ok sid) (.error e)).effects =
      [.sessionCreated sid, .sessionClosed sid] ∧
    (Lock l ttl (.ok sid) (.error e)).state = l := by
  simp [Lock, hc]

theorem lock_cancel_closes_session_witness :
    mgrA.etcdClient = some cliA ∧
    ((Lock mgrA 10 (.ok 1) (.error .cancelled)).res = .error (.lockFailed .cancelled) ∧
      (Lock mgrA 10 (.ok 1) (.error .cancelled)).effects =
        [.sessionCreated 1, .sessionClosed 1] ∧
      (Lock mgrA 10 (.ok 1) (.error .cancelled)).state = mgrA) :=
  ⟨by decide, lock_cancel_closes_session mgrA cliA 10 1 .cancelled (by decide)⟩

/-- Claim C6 counterexample: `Lock` carries no resource-name argument —
varying every per-call argument (here the ttl, 5 vs 10) still locks the
construction-time prefix "/r/" of `mgrA`; no call can address a different
resource such as "/b/" from this instance. -/
theorem resource_fixed_counterexample :
    (Lock mgrA 5 (.ok 1) (.ok ())).state.mutex = some ⟨1, "/r/"⟩ ∧
    (Lock mgrA 10 (.ok 2) (.ok ())).state.mutex = some ⟨2, "/r/"⟩ ∧
    ("/r/" : String) ≠ "/b/" := by decide

/-- Claim C6 (amended): the resource name is fixed per manager instance —
`NewEtcdDistLock` stores the caller's prefix, and every successful `Lock`
creates its mutex over exactly that stored prefix, whatever the per-call
arguments; a different resource requires a different instance. -/
theorem lock_pfx_from_construction (eps : List String) (p : String) (l : EtcdDistLock)
    (ttl sid : Nat) (hnew : NewEtcdDistLock eps p (.ok ()) = .ok l) :
    l.lockPfx = p ∧
    (Lock l ttl (.ok sid) (.ok ())).state.mutex = some ⟨sid, p⟩ := by
  simp only [NewEtcdDistLock, Except.ok.injEq] at hnew
  subst hnew
  simp [Lock]

theorem lock_pfx_from_construction_witness :
    NewEtcdDistLock ["127.0.0.1:2379"] "/r/" (.ok ()) = .ok mgrA ∧
    (mgrA.lockPfx = "/r/" ∧
      (Lock mgrA 10 (.ok 1) (.ok ())).state.mutex = some ⟨1, "/r/"⟩) :=
  ⟨by decide,
    lock_pfx_from_construction ["127.0.0.1:2379"] "/r/" mgrA 10 1 (by decide)⟩

/-- Claim C7: `Lock` returns nil exactly when the client is initialized,
session creation succeeds and `mutex.Lock` succeeds; `Unlock` returns nil
exactly when the lock is held and the store unlock succeeds.  Every other
path returns a (non-nil) error — no failure is swallowed. -/
theorem no_swallowed_failure (l l2 : EtcdDistLock) (ttl : Nat)
    (so : Except StoreErr Nat) (lo uo : Except StoreErr Unit) :
    ((Lock l ttl so lo).res = .ok () ↔
      l.etcdClient ≠ none ∧ (∃ sid, so = .ok sid) ∧ lo = .ok ()) ∧
    ((Unlock l2 uo).res = .ok () ↔
      l2.mutex ≠ none ∧ l2.session ≠ none ∧ uo = .ok ()) := by
  constructor
  · cases hc : l.etcdClient <;> cases so <;> cases lo <;> simp [Lock, hc]
  · cases hm : l2.mutex <;> cases hs : l2.session <;> cases uo <;>
      simp [Unlock, hm, hs]

/-- Claim C8: with a nil etcd client, `Lock` fails fast with the
not-initialized error and performs no store operation at all, and `Close`
returns nil without touching the client. -/
theorem nil_client_guard (l : EtcdDistLock) (ttl : Nat) (so : Except StoreErr Nat)
    (lo co : Except StoreErr Unit) (h : l.etcdClient = none) :
    (Lock l ttl so lo).res = .error .clientNotInit ∧
    (Lock l ttl so lo).effects = [] ∧
    (Lock l ttl so lo).state = l ∧
    (Close l co).res = .ok () ∧
    (Close l co).effects = [] := by
  simp [Lock, Close, h]

theorem nil_client_guard_witness :
    mgrNil.etcdClient = none ∧
    ((Lock mgrNil 10 (.ok 1) (.ok ())).res = .error .clientNotInit ∧
      (Lock mgrNil 10 (.ok 1) (.ok ())).effects = [] ∧
      (Lock mgrNil 10 (.ok 1) (.ok ())).state = mgrNil ∧
      (Close mgrNil (.ok ())).res = .ok () ∧
      (Close mgrNil (.ok ())).effects = []) :=
  ⟨by decide, nil_client_guard mgrNil 10 (.ok 1) (.ok ()) (.ok ()) (by decide)⟩

/-- Claim C9: the invariant "session is nil iff mutex is nil" holds for a
freshly constructed instance and is preserved by `Lock`, `Unlock` and
`Close`, whatever their outcomes. -/
theorem inv_preserved (l l0 : EtcdDistLock) (eps : List String) (p : String)
    (ttl : Nat) (so : Except StoreErr Nat) (lo uo co : Except StoreErr Unit)
    (h : sessionMutexInv l) (hnew : NewEtcdDistLock eps p (.ok ()) = .ok l0) :
    sessionMutexInv (Lock l ttl so lo).state ∧
    sessionMutexInv (Unlock l uo).state ∧
    sessionMutexInv (Close l co).state ∧
    sessionMutexInv l0 := by
  refine ⟨?_, ?_, ?_, ?_⟩
  · cases hc : l.etcdClient <;> cases so <;> cases lo <;>
      simp [Lock, hc, sessionMutexInv] <;> exact h
  · cases hm : l.mutex <;> cases hs : l.session <;> cases uo <;>
      simp [Unlock, hm, hs, sessionMutexInv] <;>
      simp [sessionMutexInv, hm, hs] at h
  · cases hc : l.etcdClient <;> simp [Close, hc] <;> exact h
  · simp only [NewEtcdDistLock, Except.ok.injEq] at hnew
    subst hnew
    simp [sessionMutexInv]

theorem inv_preserved_witness :
    sessionMutexInv mgrA ∧
    NewEtcdDistLock ["127.0.0.1:2379"] "/r/" (.ok ()) = .ok mgrA ∧
    (sessionMutexInv (Lock mgrA 10 (.ok 1) (.ok ())).state ∧
      sessionMutexInv (Unlock mgrA (.ok ())).state ∧
      sessionMutexInv (Close mgrA (.ok ())).state ∧
      sessionMutexInv mgrA) :=
  ⟨by simp [sessionMutexInv, mgrA], by decide,
    inv_preserved mgrA mgrA ["127.0.0.1:2379"] "/r/" 10 (.ok 1) (.ok ()) (.ok ())
      (.ok ()) (by simp [sessionMutexInv, mgrA]) (by decide)⟩

/-- Claim C10: a failed `Lock` leaves the instance exactly as it was, and a
failed `Unlock` store round-trip returns the wrapped error before clearing
anything, so the lock is still held and a retried `Unlock` can succeed. -/
theorem failure_atomicity (l l2 : EtcdDistLock) (ttl : Nat)
    (so : Except StoreErr Nat) (lo : Except StoreErr Unit) (e : StoreErr)
    (m : Mutex) (s : Session) (hfail : (Lock l ttl so lo).res ≠ .ok ())
    (hm : l2.mutex = some m) (hs : l2.session = some s) :
    (Lock l ttl so lo).state = l ∧
    (Unlock l2 (.error e)).res = .error (.unlockFailed e) ∧
    (Unlock l2 (.error e)).state = l2 ∧
    (Unlock (Unlock l2 (.error e)).state (.ok ())).res = .ok () := by
  refine ⟨?_, ?_, ?_, ?_⟩
  · cases hc : l.etcdClient <;> cases so <;> cases lo <;>
      simp [Lock, hc] at hfail ⊢
  · simp [Unlock, hm, hs]
  · simp [Unlock, hm, hs]
  · simp [Unlock, hm, hs]

theorem failure_atomicity_witness :
    (Lock mgrNil 10 (.ok 1) (.ok ())).res ≠ .ok () ∧
    heldA.mutex = some ⟨1, "/r/"⟩ ∧ heldA.session = some ⟨1, 10⟩ ∧
    ((Lock mgrNil 10 (.ok 1) (.ok ())).state = mgrNil ∧
      (Unlock heldA (.error .unavailable)).res = .error (.unlockFailed .unavailable) ∧
      (Unlock heldA (.error .unavailable)).state = heldA ∧
      (Unlock (Unlock heldA (.error .unavailable)).state (.ok ())).res = .ok ()) :=
  ⟨by decide, by decide, by decide,
    failure_atomicity mgrNil heldA 10 (.ok 1) (.ok ()) .unavailable
      ⟨1, "/r/"⟩ ⟨1, 10⟩ (by decide) (by decide) (by decide)⟩

end DistLock
